import Mathlib

/-!
Verification of the voltage-data container (`src/main.py`, class `VoltageData`).

The Python class stores a rectangular numeric table (`self._data`, built with
`np.column_stack`) of 2 or 3 columns (time, voltage, optional uncertainty),
parses tab-separated text files, and builds a cubic spline on demand.

Shallow embedding conventions:
- Cell values are exact decimals (`Dec`): a mantissa and a power-of-ten
  denominator exponent, denoting `mant / 10 ^ fexp`.  The claims examined here
  never compute with cell values, so this exact representation stands in for
  the float64 cells of the source.
- Python exceptions are modelled with `Except ErrKind`; `print` diagnostics
  are modelled as a `List String` log threaded through the functions that
  print.
- The numpy array `self._data` is a `List (List Dec)` together with its
  column count `ncols` (numpy keeps the column count of an empty table in its
  shape, so the embedding stores it explicitly).
-/

deriving instance DecidableEq for Except

/-- Kind of a raised Python exception, as far as the claims distinguish them. -/
inductive ErrKind where
  | valueError
  | indexError
  | attributeError
  | typeError
deriving DecidableEq

/-- An exact decimal `mant / 10 ^ fexp`; the value produced by parsing a plain
decimal literal such as `1.25` (mant = 125, fexp = 2). -/
structure Dec where
  mant : Int
  fexp : Nat
deriving DecidableEq

/-- Semantic value of a `Dec` as a rational (documentation only; the claims
never compute with cell values). -/
def Dec.toRat (x : Dec) : Rat := (x.mant : Rat) / (10 : Rat) ^ x.fexp

/-- Strip leading and trailing whitespace, as Python `str.strip()` does. -/
def trimChars (cs : List Char) : List Char :=
  ((cs.dropWhile Char.isWhitespace).reverse.dropWhile Char.isWhitespace).reverse

/-- Split a character list on tab characters, as Python `str.split("\t")`
does: the result always has at least one (possibly empty) field. -/
def splitFields : List Char → List Char → List (List Char)
  | [], acc => [acc.reverse]
  | c :: cs, acc =>
    if c = '\t' then acc.reverse :: splitFields cs []
    else splitFields cs (c :: acc)

/-- Numeric value of a digit string. -/
def digitsVal (cs : List Char) : Nat :=
  cs.foldl (fun n c => 10 * n + (c.toNat - 48)) 0

/-- Model of the Python built-in `float()` on plain decimal literals: optional
surrounding whitespace, optional sign, digits with an optional fractional
part (`"1"`, `"-2.5"`, `".5"`, `"1."`).  Scientific notation, `inf` and `nan`
are not modelled; every claim below is conditional on the parse outcome, so
this restriction does not affect any statement.  Returns `none` where
`float()` raises `ValueError` (empty string, non-numeric text, bare sign or
bare dot). -/
def pyFloat? (s : String) : Option Dec :=
  let core : List Char → Bool → Option Dec := fun cs neg =>
    let ip := cs.takeWhile Char.isDigit
    let rest := cs.dropWhile Char.isDigit
    match rest with
    | [] =>
      if ip.isEmpty then none
      else some ⟨if neg then -(digitsVal ip : Int) else (digitsVal ip : Int), 0⟩
    | '.' :: fr =>
      if fr.all Char.isDigit && !(ip.isEmpty && fr.isEmpty) then
        let m := digitsVal ip * 10 ^ fr.length + digitsVal fr
        some ⟨if neg then -(m : Int) else (m : Int), fr.length⟩
      else none
    | _ => none
  match trimChars s.data with
  | '-' :: rest => core rest true
  | '+' :: rest => core rest false
  | cs => core cs false

/-- The container of `class VoltageData`: the stacked table `self._data` and
its column count (part of the numpy shape even when there are zero rows). -/
structure VoltageData where
  data : List (List Dec)
  ncols : Nat
deriving DecidableEq

/-- `np.column_stack((t, v))` on two 1-D arrays: raises `ValueError` when the
lengths differ, otherwise produces the rows `[t i, v i]`. -/
def columnStack2 (t v : List Dec) : Except ErrKind (List (List Dec)) :=
  if t.length = v.length then .ok (List.zipWith (fun a b => [a, b]) t v)
  else .error .valueError

/-- `np.column_stack((m, c))` appending a 1-D column to a 2-D array: raises
`ValueError` when the row count and the column length differ. -/
def columnStackAdd (m : List (List Dec)) (c : List Dec) :
    Except ErrKind (List (List Dec)) :=
  if m.length = c.length then .ok (List.zipWith (fun r x => r ++ [x]) m c)
  else .error .valueError

/-- `VoltageData.__init__(times, voltages, voltage_errors=None)`: stack time
and voltage into a 2-column table, then append the uncertainty column when
one is supplied. -/
def VoltageData.init (times voltages : List Dec)
    (voltage_errors : Option (List Dec)) : Except ErrKind VoltageData :=
  match columnStack2 times voltages with
  | .error e => .error e
  | .ok base =>
    match voltage_errors with
    | none => .ok ⟨base, 2⟩
    | some es =>
      match columnStackAdd base es with
      | .error e => .error e
      | .ok full => .ok ⟨full, 3⟩

/-- `num_rows()`: `self._data.shape[0]`. -/
def VoltageData.numRows (d : VoltageData) : Nat := d.data.length

/-- `num_columns()`: `self._data.shape[1]`. -/
def VoltageData.numColumns (d : VoltageData) : Nat := d.ncols

/-- `__len__()`: same as `num_rows()`. -/
def VoltageData.lenOf (d : VoltageData) : Nat := d.numRows

/-- Column `j` of the table, as the list of the `j`-th cell of each row
(total helper; bounds are checked by `getColumn`). -/
def colOf (d : VoltageData) (j : Nat) : List Dec :=
  d.data.map (fun r => r.getD j ⟨0, 0⟩)

/-- `self._data[:, j]`: numpy raises `IndexError` when `j` is not below the
column count (even on a table with zero rows, whose shape keeps the column
count). -/
def VoltageData.getColumn (d : VoltageData) (j : Nat) :
    Except ErrKind (List Dec) :=
  if j < d.ncols then .ok (colOf d j) else .error .indexError

/-- Property `timestamps`: `self._data[:, 0]` (column 0 always exists on a
constructed instance, which has 2 or 3 columns). -/
def VoltageData.timestamps (d : VoltageData) : List Dec := colOf d 0

/-- Property `voltages`: `self._data[:, 1]`. -/
def VoltageData.voltages (d : VoltageData) : List Dec := colOf d 1

/-- Property `voltage_errs`: tries `self._data[:, 2]`, catches the
`IndexError` numpy raises when there is no third column and re-raises it as
an `AttributeError`. -/
def VoltageData.voltage_errs (d : VoltageData) : Except ErrKind (List Dec) :=
  match d.getColumn 2 with
  | .ok c => .ok c
  | .error .indexError => .error .attributeError
  | .error e => .error e

/-- `__getitem__(i)` for an integer index: the `i`-th row, `IndexError` out of
range (slice arguments are not needed by any claim and are not modelled). -/
def VoltageData.getItem (d : VoltageData) (i : Nat) :
    Except ErrKind (List Dec) :=
  if i < d.numRows then .ok (d.data.getD i []) else .error .indexError

/-- State of the generator returned by `__iter__`: the owning instance and
the next row index (`for i in range(len(self)): yield self._data[i, :]`). -/
structure VIter where
  owner : VoltageData
  idx : Nat

/-- `__iter__()`: a fresh generator starting at row 0. -/
def VoltageData.iter (d : VoltageData) : VIter := ⟨d, 0⟩

/-- One step of the generator: yield row `idx` while `idx < len(self)`. -/
def VIter.next (it : VIter) : Option (List Dec × VIter) :=
  if it.idx < it.owner.numRows then
    some (it.owner.data.getD it.idx [], ⟨it.owner, it.idx + 1⟩)
  else none

/-- Run an iterator for at most `n` steps, collecting the yielded rows. -/
def drain : Nat → VIter → List (List Dec)
  | 0, _ => []
  | n + 1, it =>
    match it.next with
    | none => []
    | some (r, it2) => r :: drain n it2

/-- A full pass over a fresh iterator (`list(iter(self))`); the generator
yields exactly `num_rows()` rows. -/
def VoltageData.iterate (d : VoltageData) : List (List Dec) :=
  drain d.numRows d.iter

/-- The spline object returned by
`InterpolatedUnivariateSpline(self.timestamps, self.voltages, k=3)`, modelled
by its construction data (the knots and the degree); evaluation is an
external scipy routine and is taken as a parameter where needed. -/
structure Spline where
  xs : List Dec
  ys : List Dec
  deg : Nat
deriving DecidableEq

/-- The diagnostic printed by `spline()` when there are too few points. -/
def insufficientMsg : String := "Insufficient number of points (>3)"

/-- `spline()`: builds the cubic spline when `len(self) > 3`, otherwise
prints the diagnostic and returns `None`.  The second component is the log of
printed diagnostics. -/
def VoltageData.spline (d : VoltageData) : Option Spline × List String :=
  if 3 < d.lenOf then (some ⟨d.timestamps, d.voltages, 3⟩, [])
  else (none, [insufficientMsg])

/-- `__call__(t)`: `spline = self.spline(); return spline(t)`.  When
`spline()` returned `None`, the call `spline(t)` raises
`TypeError: NoneType object is not callable`; `ev` is the external scipy
evaluation routine. -/
def VoltageData.callAt (ev : Spline → Dec → Dec) (d : VoltageData) (t : Dec) :
    Except ErrKind Dec × List String :=
  match d.spline with
  | (some s, log) => (.ok (ev s t), log)
  | (none, log) => (.error .typeError, log)

/-- Fixed-point rendering of a `Dec` with `prec` decimals (the `:.1f` and
`:.2f` fields of `__str__`); rounding of the magnitude is half-up, an
adequate stand-in for Python float formatting, which no claim inspects. -/
def fmtFixed (prec : Nat) (x : Dec) : String :=
  let sgn := if x.mant < 0 then "-" else ""
  let a := x.mant.natAbs
  let scaled := (a * 10 ^ prec * 2 + 10 ^ x.fexp) / (10 ^ x.fexp * 2)
  let ip := scaled / 10 ^ prec
  let fp := scaled % 10 ^ prec
  if prec = 0 then sgn ++ toString ip
  else
    let fs := toString fp
    sgn ++ toString ip ++ "." ++ String.mk (List.replicate (prec - fs.length) '0') ++ fs

/-- Raw rendering of a `Dec` (the bare `repr`-style field of `__repr__`). -/
def decRepr (x : Dec) : String :=
  let sgn := if x.mant < 0 then "-" else ""
  let a := x.mant.natAbs
  if x.fexp = 0 then sgn ++ toString a ++ ".0"
  else
    let ip := a / 10 ^ x.fexp
    let fp := a % 10 ^ x.fexp
    let fs := toString fp
    sgn ++ toString ip ++ "." ++ String.mk (List.replicate (x.fexp - fs.length) '0') ++ fs

/-- `__repr__()`: one line per row, the fields space-separated. -/
def VoltageData.reprOf (d : VoltageData) : String :=
  String.intercalate "\n" (d.iterate.map (fun row =>
    String.intercalate " " (row.map decRepr)))

/-- One formatted line of `__str__`: the third field is appended exactly when
the instance has 3 columns. -/
def rowStr (ncols i : Nat) (row : List Dec) : String :=
  let base := "Row " ++ toString i ++ " -> t : " ++ fmtFixed 1 (row.getD 0 ⟨0, 0⟩)
    ++ " s   V : " ++ fmtFixed 2 (row.getD 1 ⟨0, 0⟩) ++ " mV"
  if ncols = 3 then base ++ "    dV : " ++ fmtFixed 2 (row.getD 2 ⟨0, 0⟩) ++ " mV"
  else base

/-- `__str__()`: the formatted rows joined with newlines. -/
def VoltageData.strOf (d : VoltageData) : String :=
  String.intercalate "\n" (d.iterate.enum.map (fun p => rowStr d.ncols p.1 p.2))

/-! ## The record parser: `VoltageData.from_file`

The classmethod reads the file line by line (`enumerate` supplies the line
index `i` over all lines, comments included) and accumulates three lists
`t`, `v`, `dv` plus the printed diagnostics:

- a line starting with `#` is skipped;
- otherwise the stripped line is split on tabs and the body
  `t_value = float(values[0]); v_value = float(values[1]);
  t.append(t_value); v.append(v_value);
  dv_value = float(values[2]); dv.append(dv_value)`
  runs under `except IndexError: continue` (silent) and
  `except ValueError: print(...); continue`.

Note the order of operations: `t` and `v` are appended before `values[2]` is
examined, so a line whose third field is present but non-numeric keeps its
time and voltage entries. -/

/-- The diagnostic printed for a `ValueError` on line `i` with offending
field text `bad`. -/
def diagMsg (i : Nat) (bad : String) : String :=
  "Line " ++ toString i ++ " error: could not convert string to float: " ++ bad

/-- Accumulator of the `from_file` loop: the three growing lists and the log
of printed diagnostics. -/
structure ParseState where
  t : List Dec
  v : List Dec
  dv : List Dec
  log : List String
deriving DecidableEq

/-- `line.startswith("#")` (checked on the raw line, before stripping). -/
def lineIsComment (line : String) : Bool :=
  match line.data with
  | c :: _ => c = '#'
  | [] => false

/-- `line.strip().strip("\n").split("\t")` (the second strip is redundant
after the first): the tab-separated fields of the stripped line, never an
empty list. -/
def fieldsOf (line : String) : List String :=
  (splitFields (trimChars line.data) []).map (fun cs => String.mk cs)

/-- `values[j]` as text: field `j` of the split line (defaulting to the empty
string; the default is never reached where the source indexes, because the
index checks of `processLine` mirror the `IndexError` conditions). -/
def fieldAt (line : String) (j : Nat) : String :=
  (fieldsOf line).getD j ""

/-- The body of the `from_file` loop for one line, with the two `except`
clauses resolved into explicit control flow:
`values[k]` out of range is the silent `IndexError` path, a failed `float`
conversion is the printing `ValueError` path, and the appends happen exactly
where they do in the source (in particular `t`/`v` are already appended when
`float(values[2])` fails). -/
def processLine (i : Nat) (line : String) (st : ParseState) : ParseState :=
  if lineIsComment line then st
  else
    match pyFloat? (fieldAt line 0) with
    | none => { st with log := st.log ++ [diagMsg i (fieldAt line 0)] }
    | some tVal =>
      if 2 ≤ (fieldsOf line).length then
        match pyFloat? (fieldAt line 1) with
        | none => { st with log := st.log ++ [diagMsg i (fieldAt line 1)] }
        | some vVal =>
          if 3 ≤ (fieldsOf line).length then
            match pyFloat? (fieldAt line 2) with
            | none =>
              { st with t := st.t ++ [tVal], v := st.v ++ [vVal],
                        log := st.log ++ [diagMsg i (fieldAt line 2)] }
            | some dvVal =>
              { st with t := st.t ++ [tVal], v := st.v ++ [vVal],
                        dv := st.dv ++ [dvVal] }
          else { st with t := st.t ++ [tVal], v := st.v ++ [vVal] }
      else st

/-- The `from_file` loop over the remaining lines, `i` being the `enumerate`
index of the first of them. -/
def runLines : List String → Nat → ParseState → ParseState
  | [], _, st => st
  | l :: ls, i, st => runLines ls (i + 1) (processLine i l st)

/-- The accumulator at the start of the loop. -/
def emptyState : ParseState := ⟨[], [], [], []⟩

/-- `VoltageData.from_file`: run the loop over the file lines, then construct
the instance with the uncertainty list exactly when it is non-empty.  The
first component is the construction outcome, the second the printed
diagnostics. -/
def fromFile (lines : List String) : Except ErrKind VoltageData × List String :=
  let st := runLines lines 0 emptyState
  (if st.dv.length ≠ 0 then VoltageData.init st.t st.v (some st.dv)
   else VoltageData.init st.t st.v none, st.log)

/-- A line is retained (its time and voltage are appended) exactly when it is
not a comment, field 0 parses, field 1 exists and field 1 parses — the
conditions, in source order, under which the loop body reaches the two
appends. -/
def retainedLine (line : String) : Bool :=
  !lineIsComment line
    && (pyFloat? (fieldAt line 0)).isSome
    && decide (2 ≤ (fieldsOf line).length)
    && (pyFloat? (fieldAt line 1)).isSome

/-- A line contributes an uncertainty entry exactly when it is retained and
additionally has a parseable third field. -/
def suppliesThird (line : String) : Bool :=
  retainedLine line
    && decide (3 ≤ (fieldsOf line).length)
    && (pyFloat? (fieldAt line 2)).isSome

/-- The public operations of the class (slice indexing aside), for stating
that none of them mutates the stored table. -/
inductive Op where
  | opTimestamps
  | opVoltages
  | opVoltageErrs
  | opNumRows
  | opNumColumns
  | opLen
  | opGetItem (i : Nat)
  | opIterate
  | opRepr
  | opStr
  | opSpline
  | opCall (t : Dec)

/-- Result of one public operation. -/
inductive OpResult where
  | col (xs : List Dec)
  | colE (xs : Except ErrKind (List Dec))
  | rows (rs : List (List Dec))
  | count (n : Nat)
  | text (s : String)
  | splineR (r : Option Spline × List String)
  | callR (r : Except ErrKind Dec × List String)

/-- Run one public operation in state-passing form.  Every method body in the
source reads `self._data` and contains no assignment to it (`self._data` is
assigned only in `__init__`), so each branch returns the state it received;
`ev` is the external scipy spline evaluation. -/
def applyOp (ev : Spline → Dec → Dec) (d : VoltageData) :
    Op → OpResult × VoltageData
  | .opTimestamps => (.col d.timestamps, d)
  | .opVoltages => (.col d.voltages, d)
  | .opVoltageErrs => (.colE d.voltage_errs, d)
  | .opNumRows => (.count d.numRows, d)
  | .opNumColumns => (.count d.numColumns, d)
  | .opLen => (.count d.lenOf, d)
  | .opGetItem i => (.colE (d.getItem i), d)
  | .opIterate => (.rows d.iterate, d)
  | .opRepr => (.text d.reprOf, d)
  | .opStr => (.text d.strOf, d)
  | .opSpline => (.splineR d.spline, d)
  | .opCall t => (.callR (d.callAt ev t), d)

/-- Run a sequence of public operations, threading the instance state. -/
def runOps (ev : Spline → Dec → Dec) : VoltageData → List Op → VoltageData
  | d, [] => d
  | d, op :: ops => runOps ev (applyOp ev d op).2 ops

/-- A concrete 3-row, 2-column instance (too few rows for the spline). -/
def exSmall : VoltageData :=
  ⟨[[⟨0, 0⟩, ⟨10, 1⟩], [⟨1, 0⟩, ⟨20, 1⟩], [⟨2, 0⟩, ⟨15, 1⟩]], 2⟩

/-- A concrete 2-row, 3-column instance. -/
def exWithErrs : VoltageData :=
  ⟨[[⟨0, 0⟩, ⟨10, 1⟩, ⟨5, 2⟩], [⟨1, 0⟩, ⟨20, 1⟩, ⟨5, 2⟩]], 3⟩

/-- A stand-in for the external spline evaluation routine, used to
instantiate universally quantified statements at a concrete input. -/
def evZero : Spline → Dec → Dec := fun _ _ => ⟨0, 0⟩

/-! ## Helper lemmas -/

/-- One loop iteration appends to `t`/`v` exactly when the line is retained,
and to `dv` exactly when it also supplies a parseable third field. -/
theorem processLine_effect (i : Nat) (line : String) (st : ParseState) :
    (processLine i line st).t.length = st.t.length + (if retainedLine line = true then 1 else 0) ∧
    (processLine i line st).v.length = st.v.length + (if retainedLine line = true then 1 else 0) ∧
    (processLine i line st).dv.length = st.dv.length + (if suppliesThird line = true then 1 else 0) := by
  unfold processLine retainedLine suppliesThird
  by_cases hc : lineIsComment line <;>
    cases h0 : pyFloat? (fieldAt line 0) <;>
      by_cases h2 : 2 ≤ (fieldsOf line).length <;>
        cases h1 : pyFloat? (fieldAt line 1) <;>
          by_cases h3 : 3 ≤ (fieldsOf line).length <;>
            cases hdv : pyFloat? (fieldAt line 2) <;>
              simp [hc, h0, h2, h1, h3, hdv, retainedLine]

/-- Across the whole loop, `t` and `v` grow by the number of retained lines
and `dv` by the number of lines supplying a third field. -/
theorem runLines_lengths (ls : List String) : ∀ (i : Nat) (st : ParseState),
    (runLines ls i st).t.length = st.t.length + ls.countP retainedLine ∧
    (runLines ls i st).v.length = st.v.length + ls.countP retainedLine ∧
    (runLines ls i st).dv.length = st.dv.length + ls.countP suppliesThird := by
  induction ls with
  | nil => intro i st; simp [runLines]
  | cons l ls ih =>
    intro i st
    obtain ⟨ht, hv, hdv⟩ := processLine_effect i l st
    obtain ⟨ht2, hv2, hdv2⟩ := ih (i + 1) (processLine i l st)
    simp only [runLines, List.countP_cons]
    refine ⟨?_, ?_, ?_⟩ <;>
      (by_cases hr : retainedLine l = true <;> by_cases hs : suppliesThird l = true <;>
        simp_all <;> omega)

/-- A line that supplies an uncertainty entry is in particular retained. -/
theorem supplies_imp_retained {line : String} (h : suppliesThird line = true) :
    retainedLine line = true := by
  simp only [suppliesThird, Bool.and_eq_true] at h
  exact h.1.1

/-- A strict count comparison: if `p` implies `q` and some list element
satisfies `q` but not `p`, then `p` holds strictly less often than `q`. -/
theorem countP_lt_of_exists {α : Type} (p q : α → Bool)
    (hpq : ∀ x, p x = true → q x = true) :
    ∀ l : List α, (∃ x ∈ l, q x = true ∧ p x = false) →
      l.countP p < l.countP q := by
  intro l
  induction l with
  | nil => simp
  | cons a l ih =>
    rintro ⟨x, hx, hqx, hpx⟩
    simp only [List.countP_cons]
    rcases List.mem_cons.mp hx with rfl | hxl
    · have hle : l.countP p ≤ l.countP q :=
        List.countP_mono_left (fun y _ hp => hpq y hp)
      simp only [hpx, hqx, if_true, if_false, Bool.false_eq_true]
      omega
    · have hlt := ih ⟨x, hxl, hqx, hpx⟩
      by_cases hpa : p a = true
      · have hqa := hpq a hpa
        simp only [hpa, hqa, if_true]
        omega
      · simp only [if_neg hpa]
        split <;> omega

/-- Rows produced by the 2-column stacking have length 2. -/
theorem mem_zipWith_pair (t v : List Dec) :
    ∀ r ∈ List.zipWith (fun a b => [a, b]) t v, r.length = 2 := by
  induction t generalizing v with
  | nil => simp
  | cons a t ih =>
    cases v with
    | nil => simp
    | cons b v =>
      intro r hr
      rcases List.mem_cons.mp hr with rfl | hr2
      · rfl
      · exact ih v r hr2

/-- Appending a column to rows of length 2 yields rows of length 3. -/
theorem mem_zipWith_append :
    ∀ (m : List (List Dec)) (c : List Dec), (∀ r ∈ m, r.length = 2) →
      ∀ r ∈ List.zipWith (fun r x => r ++ [x]) m c, r.length = 3 := by
  intro m
  induction m with
  | nil => simp
  | cons a m ih =>
    intro c hm r hr
    cases c with
    | nil => simp at hr
    | cons x c =>
      rcases List.mem_cons.mp hr with rfl | hr2
      · simp [hm a (List.mem_cons_self a m)]
      · exact ih c (fun y h => hm y (List.mem_cons_of_mem a h)) r hr2

/-- The constructor raises `ValueError` on mismatched time/voltage lengths
(the first `column_stack`). -/
theorem init_mismatch {t v : List Dec} {errs : Option (List Dec)}
    (hl : ¬ t.length = v.length) :
    VoltageData.init t v errs = .error .valueError := by
  unfold VoltageData.init columnStack2
  simp [hl]

/-- The constructor without uncertainties, on matched lengths. -/
theorem init_none_ok {t v : List Dec} (hl : t.length = v.length) :
    VoltageData.init t v none =
      .ok ⟨List.zipWith (fun a b => [a, b]) t v, 2⟩ := by
  unfold VoltageData.init columnStack2
  simp [hl]

/-- The constructor with uncertainties, on fully matched lengths. -/
theorem init_some_ok {t v es : List Dec} (hl : t.length = v.length)
    (h2 : t.length = es.length) :
    VoltageData.init t v (some es) =
      .ok ⟨List.zipWith (fun r x => r ++ [x])
            (List.zipWith (fun a b => [a, b]) t v) es, 3⟩ := by
  unfold VoltageData.init columnStack2 columnStackAdd
  have hz : (List.zipWith (fun a b => [a, b]) t v).length = es.length := by
    simp only [List.length_zipWith]
    omega
  simp [hl, hz]

/-- The constructor raises `ValueError` when the uncertainty column length
does not match (the second `column_stack`). -/
theorem init_some_err {t v es : List Dec} (hl : t.length = v.length)
    (h2 : ¬ t.length = es.length) :
    VoltageData.init t v (some es) = .error .valueError := by
  unfold VoltageData.init columnStack2 columnStackAdd
  have hz : ¬ (List.zipWith (fun a b => [a, b]) t v).length = es.length := by
    simp only [List.length_zipWith]
    omega
  have hv : ¬ v.length = es.length := by omega
  simp [hl, hz, hv]

/-- Shape facts of a successfully constructed instance: matched inputs, row
count, column count, and rectangularity. -/
theorem init_ok_facts {times voltages : List Dec} {errs : Option (List Dec)}
    {d : VoltageData} (h : VoltageData.init times voltages errs = .ok d) :
    times.length = voltages.length ∧
    d.numRows = times.length ∧
    d.ncols = (if errs.isSome then 3 else 2) ∧
    (∀ r ∈ d.data, r.length = d.ncols) := by
  by_cases hl : times.length = voltages.length
  · cases errs with
    | none =>
      rw [init_none_ok hl] at h
      obtain rfl := Except.ok.inj h
      refine ⟨hl, ?_, by simp, ?_⟩
      · simp [VoltageData.numRows, List.length_zipWith, hl]
      · intro r hr
        exact mem_zipWith_pair times voltages r hr
    | some es =>
      by_cases h2 : times.length = es.length
      · rw [init_some_ok hl h2] at h
        obtain rfl := Except.ok.inj h
        refine ⟨hl, ?_, by simp, ?_⟩
        · simp only [VoltageData.numRows, List.length_zipWith]
          omega
        · intro r hr
          exact mem_zipWith_append _ es (mem_zipWith_pair times voltages) r hr
      · rw [init_some_err hl h2] at h
        exact absurd h (by simp)
  · rw [init_mismatch hl] at h
    exact absurd h (by simp)

/-- Draining the generator from position `i` yields the rows from `i` on. -/
theorem drain_eq_drop (d : VoltageData) :
    ∀ (n i : Nat), i + n = d.data.length → drain n ⟨d, i⟩ = d.data.drop i := by
  intro n
  induction n with
  | zero =>
    intro i hi
    have hle : d.data.length ≤ i := by omega
    rw [List.drop_of_length_le hle]
    rfl
  | succ n ih =>
    intro i hi
    have hlt : i < d.data.length := by omega
    have hnext : VIter.next ⟨d, i⟩ = some (d.data.getD i [], ⟨d, i + 1⟩) := by
      unfold VIter.next
      simp [VoltageData.numRows, hlt]
    unfold drain
    simp only [hnext]
    rw [ih (i + 1) (by omega)]
    rw [List.getD_eq_getElem?_getD, List.getElem?_eq_getElem hlt,
      List.drop_eq_getElem_cons hlt]
    rfl

/-- A full pass of the generator yields exactly the stored rows in order. -/
theorem iterate_eq_data (d : VoltageData) : d.iterate = d.data := by
  unfold VoltageData.iterate VoltageData.iter
  rw [drain_eq_drop d d.numRows 0 (by simp [VoltageData.numRows])]
  simp

/-- With fewer than 4 rows, `spline()` prints the diagnostic and returns
`None` (shared by the spline and `__call__` claims). -/
theorem spline_none_of_small {d : VoltageData} (h : d.numRows < 4) :
    d.spline = (none, [insufficientMsg]) := by
  unfold VoltageData.spline
  have hn : ¬ 3 < d.lenOf := by
    unfold VoltageData.lenOf VoltageData.numRows at *
    omega
  simp [hn]

/-! ## Claim theorems -/

/-- C1 (code bug): the claim — and the docstring of `from_file`, which says
that if a value in a row is not a float none of the values of that row are
read — require a line whose third field is present but non-float to be
discarded entirely.  The code appends `t_value` and `v_value` before
`float(values[2])` runs, so the failure is detected only after time and value
are committed: on the single input line `1.0<TAB>2.0<TAB>abc` the resulting
container keeps the row `(1.0, 2.0)` (one row, two columns) while the
`ValueError` diagnostic for field 2 is printed. -/
theorem c1_bad_third_field_keeps_time_value :
    fromFile ["1.0\t2.0\tabc"] =
      (.ok ⟨[[⟨10, 1⟩, ⟨20, 1⟩]], 2⟩,
       ["Line 0 error: could not convert string to float: abc"]) := by decide

/-- C2 (counterexample): the claim says `__call__` on a container with fewer
than 4 rows does not raise.  On a concrete 3-row instance (constructed by
`__init__`), `spline()` returns `None` and `spline(t)` then raises
`TypeError` (`None` is not callable), modelled as the `.error .typeError`
outcome — the call does raise. -/
theorem c2_counterexample :
    exSmall.numRows < 4 ∧
    VoltageData.init [⟨0, 0⟩, ⟨1, 0⟩, ⟨2, 0⟩] [⟨10, 1⟩, ⟨20, 1⟩, ⟨15, 1⟩] none = .ok exSmall ∧
    (VoltageData.callAt evZero exSmall ⟨0, 0⟩).1 = .error .typeError := by decide

/-- C2 (amended): for every container with fewer than 4 rows and every query
time, `__call__` prints the insufficient-points diagnostic and then raises
`TypeError` by calling the `None` that `spline()` returned; the failure is a
raised exception, not a silently absent result. -/
theorem c2_call_raises (ev : Spline → Dec → Dec) (d : VoltageData) (t : Dec)
    (h : d.numRows < 4) :
    VoltageData.callAt ev d t = (.error .typeError, [insufficientMsg]) := by
  unfold VoltageData.callAt
  rw [spline_none_of_small h]

/-- C2 (witness): the amended statement at the concrete 3-row instance. -/
theorem c2_witness :
    exSmall.numRows < 4 ∧
    VoltageData.callAt evZero exSmall ⟨0, 0⟩ = (.error .typeError, [insufficientMsg]) :=
  ⟨by decide, c2_call_raises evZero exSmall ⟨0, 0⟩ (by decide)⟩

/-- C3 (counterexample): the claim says every malformed time/value line —
non-numeric or missing field alike — produces a diagnostic.  The single input
line `1.0` has no value field at all; the loop hits `IndexError` at
`values[1]`, which is swallowed by the silent `except IndexError: continue`:
the line is discarded (0 rows) but the printed log is empty — no diagnostic
identifies the line. -/
theorem c3_counterexample :
    fromFile ["1.0"] = (.ok ⟨[], 2⟩, []) := by decide

/-- C3 (amended): for every non-comment line whose time or value field is
malformed, the line is discarded (nothing is appended to any of the three
lists) and ingestion continues with the next line; a diagnostic naming the
line index and the offending field is printed when a field is present but
non-numeric (`ValueError`), while a line whose value field is missing
entirely is discarded silently (`IndexError`, no diagnostic). -/
theorem c3_malformed_line_recovery (i : Nat) (line : String) (st : ParseState)
    (hnc : lineIsComment line = false) :
    (pyFloat? (fieldAt line 0) = none →
      processLine i line st =
        { st with log := st.log ++ [diagMsg i (fieldAt line 0)] }) ∧
    (∀ a, pyFloat? (fieldAt line 0) = some a → 2 ≤ (fieldsOf line).length →
      pyFloat? (fieldAt line 1) = none →
      processLine i line st =
        { st with log := st.log ++ [diagMsg i (fieldAt line 1)] }) ∧
    (∀ a, pyFloat? (fieldAt line 0) = some a → (fieldsOf line).length < 2 →
      processLine i line st = st) ∧
    (∀ rest, runLines (line :: rest) i st =
      runLines rest (i + 1) (processLine i line st)) := by
  refine ⟨?_, ?_, ?_, fun rest => rfl⟩
  · intro h0
    simp [processLine, hnc, h0]
  · intro a h0 h2 h1
    simp [processLine, hnc, h0, h2, h1]
  · intro a h0 hlt
    have h2 : ¬ 2 ≤ (fieldsOf line).length := by omega
    simp [processLine, hnc, h0, h2]

/-- C3 (witness): the amended statement at the concrete line `abc<TAB>1.0`,
whose time field is non-numeric: the line is dropped and the diagnostic is
printed. -/
theorem c3_witness :
    processLine 0 "abc\t1.0" emptyState =
      { emptyState with log := emptyState.log ++ [diagMsg 0 (fieldAt "abc\t1.0" 0)] } :=
  (c3_malformed_line_recovery 0 "abc\t1.0" emptyState (by decide)).1 (by decide)

/-- C4: on a 2-column container, `voltage_errs` fails with the
missing-optional-attribute kind (`AttributeError`), never the index-range
kind; on a 3-column container it returns column 2, whose length equals the
row count. -/
theorem c4_voltage_errs (d : VoltageData) :
    (d.numColumns = 2 → d.voltage_errs = .error .attributeError) ∧
    (d.numColumns = 3 →
      d.voltage_errs = .ok (colOf d 2) ∧ (colOf d 2).length = d.numRows) := by
  constructor
  · intro h2
    unfold VoltageData.voltage_errs VoltageData.getColumn
    unfold VoltageData.numColumns at h2
    simp [h2]
  · intro h3
    unfold VoltageData.voltage_errs VoltageData.getColumn
    unfold VoltageData.numColumns at h3
    simp [h3, colOf, VoltageData.numRows]

/-- C4 (witness): both branches at concrete 2-column and 3-column
instances. -/
theorem c4_witness :
    exSmall.numColumns = 2 ∧ exSmall.voltage_errs = .error .attributeError ∧
    exWithErrs.numColumns = 3 ∧ exWithErrs.voltage_errs = .ok (colOf exWithErrs 2) ∧
    (colOf exWithErrs 2).length = exWithErrs.numRows :=
  ⟨rfl, (c4_voltage_errs exSmall).1 rfl, rfl,
   ((c4_voltage_errs exWithErrs).2 rfl).1, ((c4_voltage_errs exWithErrs).2 rfl).2⟩

/-- C5: every successful construction has 2 or 3 columns; it has 3 exactly
when an uncertainty sequence was supplied (in-memory constructor), or, for
text ingestion, exactly when some line was retained with a parseable third
field. -/
theorem c5_column_count :
    (∀ (times voltages : List Dec) (errs : Option (List Dec)) (d : VoltageData),
      VoltageData.init times voltages errs = .ok d →
        (d.numColumns = 2 ∨ d.numColumns = 3) ∧
        (d.numColumns = 3 ↔ errs.isSome = true)) ∧
    (∀ (lines : List String) (d : VoltageData) (log : List String),
      fromFile lines = (.ok d, log) →
        (d.numColumns = 2 ∨ d.numColumns = 3) ∧
        (d.numColumns = 3 ↔ ∃ l ∈ lines, suppliesThird l = true)) := by
  constructor
  · intro times voltages errs d h
    obtain ⟨-, -, hc, -⟩ := init_ok_facts h
    cases errs with
    | none =>
      simp only [Option.isSome_none] at hc ⊢
      simp only [VoltageData.numColumns]
      simp at hc
      simp [hc]
    | some es =>
      simp only [Option.isSome_some] at hc ⊢
      simp only [VoltageData.numColumns]
      simp at hc
      simp [hc]
  · intro lines d log h
    obtain ⟨ht, hv, hdv⟩ := runLines_lengths lines 0 emptyState
    rw [show emptyState.dv.length = 0 from rfl, Nat.zero_add] at hdv
    have h1 : (fromFile lines).1 = .ok d := by rw [h]
    have key : (fromFile lines).1 =
        (if (runLines lines 0 emptyState).dv.length ≠ 0 then
          VoltageData.init (runLines lines 0 emptyState).t
            (runLines lines 0 emptyState).v (some (runLines lines 0 emptyState).dv)
        else VoltageData.init (runLines lines 0 emptyState).t
            (runLines lines 0 emptyState).v none) := rfl
    rw [key] at h1
    split at h1
    next hne =>
      obtain ⟨-, -, hc, -⟩ := init_ok_facts h1
      simp at hc
      have hex : ∃ l ∈ lines, suppliesThird l = true := by
        refine List.countP_pos_iff.mp ?_
        omega
      simp only [VoltageData.numColumns, hc]
      exact ⟨Or.inr trivial, by simp [hex]⟩
    next hne =>
      obtain ⟨-, -, hc, -⟩ := init_ok_facts h1
      simp at hc
      have hnex : ¬ ∃ l ∈ lines, suppliesThird l = true := by
        intro hex
        have hpos := List.countP_pos_iff.mpr hex
        omega
      simp only [VoltageData.numColumns, hc]
      refine ⟨Or.inl trivial, ?_⟩
      simp [hnex]

/-- C5 (witness): the in-memory branch with a supplied uncertainty sequence
(3 columns) and the text branch on a single two-field line (2 columns, no
third field supplied). -/
theorem c5_witness :
    ((exWithErrs.numColumns = 2 ∨ exWithErrs.numColumns = 3) ∧
      (exWithErrs.numColumns = 3 ↔ (some [⟨5, 2⟩, ⟨5, 2⟩] : Option (List Dec)).isSome = true)) ∧
    (((⟨[[⟨0, 1⟩, ⟨10, 1⟩]], 2⟩ : VoltageData).numColumns = 2 ∨
        (⟨[[⟨0, 1⟩, ⟨10, 1⟩]], 2⟩ : VoltageData).numColumns = 3) ∧
      ((⟨[[⟨0, 1⟩, ⟨10, 1⟩]], 2⟩ : VoltageData).numColumns = 3 ↔
        ∃ l ∈ ["0.0\t1.0"], suppliesThird l = true)) :=
  ⟨c5_column_count.1 [⟨0, 0⟩, ⟨1, 0⟩] [⟨10, 1⟩, ⟨20, 1⟩] (some [⟨5, 2⟩, ⟨5, 2⟩])
      exWithErrs (by decide),
   c5_column_count.2 ["0.0\t1.0"] ⟨[[⟨0, 1⟩, ⟨10, 1⟩]], 2⟩ [] (by decide)⟩

/-- C6: with fewer than 4 rows, the spline request produces no spline object:
the diagnostic is printed and the caller receives `None`, with no exception
thrown. -/
theorem c6_spline_too_few (d : VoltageData) (h : d.numRows < 4) :
    d.spline = (none, [insufficientMsg]) :=
  spline_none_of_small h

/-- C6 (witness): the statement at the concrete 3-row instance. -/
theorem c6_witness :
    exSmall.numRows < 4 ∧ exSmall.spline = (none, [insufficientMsg]) :=
  ⟨by decide, c6_spline_too_few exSmall (by decide)⟩

/-- C7: the column count fixed at construction (2 or 3) never changes: no
public operation — accessors, indexing, iteration, rendering, spline build or
interpolated evaluation — mutates the stored table.  Every method body of the
source reads `self._data` without assigning to it, so running any sequence of
public operations leaves the instance, and in particular its column count,
unchanged. -/
theorem c7_no_mutation (ev : Spline → Dec → Dec) (times voltages : List Dec)
    (errs : Option (List Dec)) (d : VoltageData) (ops : List Op)
    (h : VoltageData.init times voltages errs = .ok d) :
    runOps ev d ops = d ∧ (runOps ev d ops).numColumns = d.numColumns ∧
    (d.numColumns = 2 ∨ d.numColumns = 3) := by
  have hrun : ∀ (l : List Op) (e : VoltageData), runOps ev e l = e := by
    intro l
    induction l with
    | nil => intro e; rfl
    | cons op l ih =>
      intro e
      have hop : (applyOp ev e op).2 = e := by cases op <;> rfl
      simp only [runOps, hop]
      exact ih e
  obtain ⟨-, -, hc, -⟩ := init_ok_facts h
  refine ⟨hrun ops d, by rw [hrun ops d], ?_⟩
  cases errs with
  | none => simp at hc; simp [VoltageData.numColumns, hc]
  | some es => simp at hc; simp [VoltageData.numColumns, hc]

/-- C7 (witness): a concrete operation sequence (spline build, iteration,
rendering, uncertainty access) on a concrete constructed instance. -/
theorem c7_witness :
    runOps evZero exSmall [Op.opSpline, Op.opIterate, Op.opStr, Op.opVoltageErrs] = exSmall ∧
    (runOps evZero exSmall [Op.opSpline, Op.opIterate, Op.opStr, Op.opVoltageErrs]).numColumns
      = exSmall.numColumns ∧
    (exSmall.numColumns = 2 ∨ exSmall.numColumns = 3) :=
  c7_no_mutation evZero [⟨0, 0⟩, ⟨1, 0⟩, ⟨2, 0⟩] [⟨10, 1⟩, ⟨20, 1⟩, ⟨15, 1⟩] none exSmall
    [Op.opSpline, Op.opIterate, Op.opStr, Op.opVoltageErrs] (by decide)

/-- C8: on a rectangular container, row iteration yields exactly `num_rows()`
rows — precisely the stored rows in original order — each of length equal to
the column count; and since `__iter__` returns a fresh generator per request,
any two full passes yield identical sequences of rows. -/
theorem c8_iteration (d : VoltageData)
    (h : ∀ r ∈ d.data, r.length = d.ncols) :
    d.iterate = d.data ∧
    d.iterate.length = d.numRows ∧
    (∀ r ∈ d.iterate, r.length = d.numColumns) ∧
    (∀ pass1 pass2 : List (List Dec),
      pass1 = d.iterate → pass2 = d.iterate → pass1 = pass2) := by
  have he := iterate_eq_data d
  refine ⟨he, by rw [he]; rfl, ?_, ?_⟩
  · intro r hr
    rw [he] at hr
    exact h r hr
  · intro p1 p2 h1 h2
    rw [h1, h2]

/-- C8 (witness): iteration over the concrete 2-row, 3-column instance. -/
theorem c8_witness :
    exWithErrs.iterate = exWithErrs.data ∧
    exWithErrs.iterate.length = exWithErrs.numRows ∧
    (∀ r ∈ exWithErrs.iterate, r.length = exWithErrs.numColumns) ∧
    (∀ pass1 pass2 : List (List Dec),
      pass1 = exWithErrs.iterate → pass2 = exWithErrs.iterate → pass1 = pass2) :=
  c8_iteration exWithErrs (by decide)

/-- C9: whenever `from_file` produces a container, its row count equals the
number of input lines whose time and value fields both parsed (comment lines
and dropped lines contribute nothing). -/
theorem c9_row_count (lines : List String) (d : VoltageData) (log : List String)
    (h : fromFile lines = (.ok d, log)) :
    d.numRows = lines.countP retainedLine := by
  obtain ⟨ht, hv, hdv⟩ := runLines_lengths lines 0 emptyState
  rw [show emptyState.t.length = 0 from rfl, Nat.zero_add] at ht
  have h1 : (fromFile lines).1 = .ok d := by rw [h]
  have key : (fromFile lines).1 =
      (if (runLines lines 0 emptyState).dv.length ≠ 0 then
        VoltageData.init (runLines lines 0 emptyState).t
          (runLines lines 0 emptyState).v (some (runLines lines 0 emptyState).dv)
      else VoltageData.init (runLines lines 0 emptyState).t
          (runLines lines 0 emptyState).v none) := rfl
  rw [key] at h1
  split at h1 <;>
    · obtain ⟨-, hrows, -, -⟩ := init_ok_facts h1
      omega

/-- C9 (witness): a comment line, a dropped line and a retained line give a
1-row container. -/
theorem c9_witness :
    (VoltageData.mk [[⟨10, 1⟩, ⟨20, 1⟩]] 2).numRows =
      (["# c", "abc\t1.0", "1.0\t2.0"].countP retainedLine) :=
  c9_row_count ["# c", "abc\t1.0", "1.0\t2.0"] ⟨[[⟨10, 1⟩, ⟨20, 1⟩]], 2⟩
    ["Line 1 error: could not convert string to float: abc"] (by decide)

/-- C10: when at least one retained line supplies a parseable third field and
at least one retained line does not, the uncertainty list ends up non-empty
but shorter than the time/value lists, and the final construction step of
`from_file` raises (`ValueError` from `np.column_stack`): no container is
produced. -/
theorem c10_partial_third_raises (lines : List String)
    (hsome : ∃ l ∈ lines, suppliesThird l = true)
    (hmiss : ∃ l ∈ lines, retainedLine l = true ∧ suppliesThird l = false) :
    (fromFile lines).1 = .error .valueError := by
  obtain ⟨ht, hv, hdv⟩ := runLines_lengths lines 0 emptyState
  rw [show emptyState.t.length = 0 from rfl, Nat.zero_add] at ht
  rw [show emptyState.v.length = 0 from rfl, Nat.zero_add] at hv
  rw [show emptyState.dv.length = 0 from rfl, Nat.zero_add] at hdv
  have hlt : lines.countP suppliesThird < lines.countP retainedLine :=
    countP_lt_of_exists _ _ (fun x hx => supplies_imp_retained hx) lines hmiss
  have hpos : 0 < lines.countP suppliesThird := List.countP_pos_iff.mpr hsome
  have key : (fromFile lines).1 =
      (if (runLines lines 0 emptyState).dv.length ≠ 0 then
        VoltageData.init (runLines lines 0 emptyState).t
          (runLines lines 0 emptyState).v (some (runLines lines 0 emptyState).dv)
      else VoltageData.init (runLines lines 0 emptyState).t
          (runLines lines 0 emptyState).v none) := rfl
  rw [key, if_pos (by omega)]
  exact init_some_err (by omega) (by omega)

/-- C10 (witness): one line with a parseable third field followed by one
retained line without a third field make `from_file` fail with
`ValueError`. -/
theorem c10_witness :
    (∃ l ∈ ["0.0\t1.0\t0.5", "1.0\t2.0"], suppliesThird l = true) ∧
    (∃ l ∈ ["0.0\t1.0\t0.5", "1.0\t2.0"], retainedLine l = true ∧ suppliesThird l = false) ∧
    (fromFile ["0.0\t1.0\t0.5", "1.0\t2.0"]).1 = .error .valueError :=
  have h1 : ∃ l ∈ ["0.0\t1.0\t0.5", "1.0\t2.0"], suppliesThird l = true := by decide
  have h2 : ∃ l ∈ ["0.0\t1.0\t0.5", "1.0\t2.0"],
      retainedLine l = true ∧ suppliesThird l = false := by decide
  ⟨h1, h2, c10_partial_third_raises _ h1 h2⟩
